import Mathlib

/-!
# Deal-Finderz: verification of the filter/paginate engine and the Zillow matcher

Shallow embedding of the two algorithmic cores of the repository:

* `DealFinder.App` — the `/api/deals` endpoint of `src/app/app.py`:
  parameter validation/normalization, the attribute (stage-2) filter pass,
  and server-side pagination.  Python floats are modelled as `ℚ` (only
  comparisons occur), Python `int` as `ℤ`, absent/null dict entries as
  `Option`.  Python truthiness (`if x:`) is modelled by explicit
  `pyTruthy*` helpers (`0`, `""`, `None` are falsy).
* `DealFinder.XRef` — `src/scripts/cross_reference_zillow.py`: the
  Haversine distance, the weighted match score, the batch matching loop
  and the blind-insert persistence, over `ℝ` (Python's `math` library).
-/

namespace DealFinder

namespace App

/-- Python truthiness for an optional string: `None` and `""` are falsy. -/
def pyTruthyStr : Option String → Bool
  | none => false
  | some s => s != ""

/-- Python truthiness for an optional int: `None` and `0` are falsy. -/
def pyTruthyInt : Option Int → Bool
  | none => false
  | some v => v != 0

/-- Python truthiness for an optional rational (Python float): `None` and `0.0` are falsy. -/
def pyTruthyQ : Option ℚ → Bool
  | none => false
  | some v => v != 0

/-- Raw request parameters of `/api/deals` (`app.py` lines 83-174).
`none` models a parameter that is absent or fails to parse as the declared
type (Flask's `request.args.get(..., type=...)` substitutes the default in
both cases). -/
structure RawParams where
  min_price : Option ℚ := none
  max_price : Option ℚ := none
  lat : Option ℚ := none
  lng : Option ℚ := none
  radius : Option ℚ := none
  source : Option String := none
  min_score : Option ℚ := none
  limit : Option Int := none
  page : Option Int := none
  page_size : Option Int := none
  city : Option String := none
  state : Option String := none
  county : Option String := none
  property_category : Option String := none
  property_type : Option String := none
  min_bedrooms : Option Int := none
  max_bedrooms : Option Int := none
  min_bathrooms : Option ℚ := none
  max_bathrooms : Option ℚ := none
  min_sqft : Option Int := none
  max_sqft : Option Int := none
  min_lot_size : Option ℚ := none
  max_lot_size : Option ℚ := none
  has_pool : Option String := none
  has_gym : Option String := none
  pet_friendly : Option String := none
  crime_rate : Option String := none
  flood_zone : Option String := none
  sewage_system : Option String := none
  min_school_rating : Option ℚ := none
  market_status : Option String := none
deriving DecidableEq

/-- The validated/normalized filter specification used by the filtering code
(`app.py`: the local variables after all `return 400` checks have passed). -/
structure Spec where
  min_price : Option ℚ := none
  max_price : Option ℚ := none
  lat : Option ℚ := none
  lng : Option ℚ := none
  radius : Option ℚ := none
  source : Option String := none
  min_score : ℚ := 0
  limit : Int := 100
  page : Int := 1
  page_size : Int := 100
  city : Option String := none
  state : Option String := none
  county : Option String := none
  property_category : Option String := none
  property_type : Option String := none
  min_bedrooms : Option Int := none
  max_bedrooms : Option Int := none
  min_bathrooms : Option ℚ := none
  max_bathrooms : Option ℚ := none
  min_sqft : Option Int := none
  max_sqft : Option Int := none
  min_lot_size : Option ℚ := none
  max_lot_size : Option ℚ := none
  has_pool : Bool := false
  has_gym : Bool := false
  pet_friendly : Bool := false
  crime_rate : Option String := none
  flood_zone : Option String := none
  sewage_system : Option String := none
  min_school_rating : Option ℚ := none
  market_status : Option String := none
deriving DecidableEq

/-- `request.args.get('has_pool') == 'true'` (`app.py` lines 163-165):
the amenity flag is set iff the raw value is exactly the string `"true"`. -/
def isTrue (r : Option String) : Bool := r == some "true"

/-- The chain of `return jsonify({'error': ...}), 400` checks of `get_deals`
(`app.py` lines 95-178) in source order; `some message` is the first
validation failure, `none` means every check passed. -/
def validationError (p : RawParams) : Option String :=
  if p.min_price.isSome && decide (p.min_price.getD 0 < 0) then
    some "min_price must be non-negative"
  else if p.max_price.isSome && decide (p.max_price.getD 0 < 0) then
    some "max_price must be non-negative"
  else if p.min_price.isSome && p.max_price.isSome &&
      decide (p.min_price.getD 0 > p.max_price.getD 0) then
    some "min_price cannot be greater than max_price"
  else if p.radius.isSome &&
      (decide (p.radius.getD 0 < 0) || decide (p.radius.getD 0 > 100)) then
    some "radius must be between 0 and 100 km"
  else if decide (p.min_score.getD 0 < 0) || decide (p.min_score.getD 0 > 1) then
    some "min_score must be between 0 and 1"
  else if decide (p.limit.getD 100 < 1) || decide (p.limit.getD 100 > 1000) then
    some "limit must be between 1 and 1000"
  else if decide (p.page_size.getD 100 < 1) || decide (p.page_size.getD 100 > 1000) then
    some "page_size must be between 1 and 1000"
  else if pyTruthyStr p.property_category &&
      !(p.property_category.getD "" == "residential" ||
        p.property_category.getD "" == "commercial" ||
        p.property_category.getD "" == "land") then
    some "property_category must be one of: residential, commercial, land"
  else if p.min_bedrooms.isSome && decide (p.min_bedrooms.getD 0 < 0) then
    some "min_bedrooms must be non-negative"
  else if p.max_bedrooms.isSome && decide (p.max_bedrooms.getD 0 < 0) then
    some "max_bedrooms must be non-negative"
  else if p.min_bedrooms.isSome && p.max_bedrooms.isSome &&
      decide (p.min_bedrooms.getD 0 > p.max_bedrooms.getD 0) then
    some "min_bedrooms cannot be greater than max_bedrooms"
  else if p.min_bathrooms.isSome && decide (p.min_bathrooms.getD 0 < 0) then
    some "min_bathrooms must be non-negative"
  else if p.max_bathrooms.isSome && decide (p.max_bathrooms.getD 0 < 0) then
    some "max_bathrooms must be non-negative"
  else if p.min_bathrooms.isSome && p.max_bathrooms.isSome &&
      decide (p.min_bathrooms.getD 0 > p.max_bathrooms.getD 0) then
    some "min_bathrooms cannot be greater than max_bathrooms"
  else if p.min_sqft.isSome && decide (p.min_sqft.getD 0 < 0) then
    some "min_sqft must be non-negative"
  else if p.max_sqft.isSome && decide (p.max_sqft.getD 0 < 0) then
    some "max_sqft must be non-negative"
  else if p.min_sqft.isSome && p.max_sqft.isSome &&
      decide (p.min_sqft.getD 0 > p.max_sqft.getD 0) then
    some "min_sqft cannot be greater than max_sqft"
  else if p.min_lot_size.isSome && decide (p.min_lot_size.getD 0 < 0) then
    some "min_lot_size must be non-negative"
  else if p.max_lot_size.isSome && decide (p.max_lot_size.getD 0 < 0) then
    some "max_lot_size must be non-negative"
  else if p.min_lot_size.isSome && p.max_lot_size.isSome &&
      decide (p.min_lot_size.getD 0 > p.max_lot_size.getD 0) then
    some "min_lot_size cannot be greater than max_lot_size"
  else if pyTruthyStr p.market_status &&
      !(p.market_status.getD "" == "on_market" ||
        p.market_status.getD "" == "off_market") then
    some "market_status must be one of: on_market, off_market"
  else none

/-- The local variables the filtering code runs with once validation has
passed: Flask defaults applied, `page`/`page_size` normalized
(`app.py` lines 83-92, 110-113, 163-165). -/
def normalizeSpec (p : RawParams) : Spec :=
  { min_price := p.min_price
    max_price := p.max_price
    lat := p.lat
    lng := p.lng
    radius := p.radius
    source := p.source
    min_score := p.min_score.getD 0
    limit := p.limit.getD 100
    page := if p.page.getD 1 < 1 then 1 else p.page.getD 1
    page_size := if p.page_size.getD 100 < 1 then 100 else p.page_size.getD 100
    city := p.city
    state := p.state
    county := p.county
    property_category := p.property_category
    property_type := p.property_type
    min_bedrooms := p.min_bedrooms
    max_bedrooms := p.max_bedrooms
    min_bathrooms := p.min_bathrooms
    max_bathrooms := p.max_bathrooms
    min_sqft := p.min_sqft
    max_sqft := p.max_sqft
    min_lot_size := p.min_lot_size
    max_lot_size := p.max_lot_size
    has_pool := isTrue p.has_pool
    has_gym := isTrue p.has_gym
    pet_friendly := isTrue p.pet_friendly
    crime_rate := p.crime_rate
    flood_zone := p.flood_zone
    sewage_system := p.sewage_system
    min_school_rating := p.min_school_rating
    market_status := p.market_status }

/-- Validation and normalization of `/api/deals` parameters: the first
failing check aborts with its 400 message, otherwise the query proceeds
with the normalized values. -/
def validateParams (p : RawParams) : Except String Spec :=
  match validationError p with
  | some e => .error e
  | none => .ok (normalizeSpec p)

/-- Projection of the validation outcome onto the produced error, if any. -/
def validateErr (p : RawParams) : Option String :=
  match validateParams p with
  | .error e => some e
  | .ok _ => none

/-- One row of `app.deals_enriched` as read by the stage-2 loop
(`app.py` lines 222-286).  Columns selected directly (`deal['price']`,
`deal['source']`) are plain fields; columns read through `deal.get(...)`
(which may be SQL `NULL`) are `Option` fields. -/
structure Deal where
  price : ℚ
  source : String
  match_score : Option ℚ := none
  property_category : Option String := none
  property_type : Option String := none
  bedrooms : Option Int := none
  bathrooms : Option ℚ := none
  square_feet : Option Int := none
  lot_size : Option ℚ := none
  has_pool : Option Bool := none
  has_gym : Option Bool := none
  pet_friendly : Option Bool := none
  crime_rate : Option String := none
  flood_zone : Option String := none
  school_rating : Option ℚ := none
  sewage_system : Option String := none
  on_market : Option Bool := none
deriving DecidableEq

/-- Price clause (`app.py` 224-227): the deal survives unless a supplied
bound is violated. -/
def priceOk (minP maxP : Option ℚ) (price : ℚ) : Bool :=
  !(minP.isSome && decide (price < minP.getD 0)) &&
  !(maxP.isSome && decide (price > maxP.getD 0))

/-- Source clause (`app.py` 230-231): `if source and deal['source'] != source`. -/
def sourceOk (src : Option String) (dealSrc : String) : Bool :=
  !(pyTruthyStr src && dealSrc != src.getD "")

/-- Score clause (`app.py` 232-234): `ms = deal.get('match_score') or 0.0`,
filtered only when `min_score > 0`. -/
def scoreOk (minScore : ℚ) (ms : Option ℚ) : Bool :=
  !(decide (minScore > 0) && decide (ms.getD 0 < minScore))

/-- Exact-string clause used for `property_category`, `property_type`,
`crime_rate`, `flood_zone` and `sewage_system` (`app.py` 237-239, 270-276):
`if want and deal.get(field) != want`. -/
def exactStrOk (want : Option String) (dealVal : Option String) : Bool :=
  !(pyTruthyStr want && dealVal != want)

/-- Bedrooms clause (`app.py` 241-244).  Note the Python truthiness guard
`deal.get('bedrooms') and ...`: both a missing value and a value of `0`
skip the bound check. -/
def bedroomsOk (minB maxB : Option Int) (beds : Option Int) : Bool :=
  !(minB.isSome && pyTruthyInt beds && decide (beds.getD 0 < minB.getD 0)) &&
  !(maxB.isSome && pyTruthyInt beds && decide (beds.getD 0 > maxB.getD 0))

/-- Bathrooms clause (`app.py` 245-248), same truthiness guard over floats. -/
def bathroomsOk (minB maxB : Option ℚ) (baths : Option ℚ) : Bool :=
  !(minB.isSome && pyTruthyQ baths && decide (baths.getD 0 < minB.getD 0)) &&
  !(maxB.isSome && pyTruthyQ baths && decide (baths.getD 0 > maxB.getD 0))

/-- Square-feet clause (`app.py` 250-254).  This one uses
`deal.get('square_feet') is not None`, not truthiness. -/
def sqftOk (minS maxS : Option Int) (sqft : Option Int) : Bool :=
  !(minS.isSome && sqft.isSome && decide (sqft.getD 0 < minS.getD 0)) &&
  !(maxS.isSome && sqft.isSome && decide (sqft.getD 0 > maxS.getD 0))

/-- Lot-size clause (`app.py` 256-258), truthiness guard over floats. -/
def lotSizeOk (minL maxL : Option ℚ) (lot : Option ℚ) : Bool :=
  !(minL.isSome && pyTruthyQ lot && decide (lot.getD 0 < minL.getD 0)) &&
  !(maxL.isSome && pyTruthyQ lot && decide (lot.getD 0 > maxL.getD 0))

/-- Amenity clause (`app.py` 262-267): `if flag and not deal.get(field, False)`. -/
def amenityOk (flag : Bool) (dealFlag : Option Bool) : Bool :=
  !(flag && !(dealFlag.getD false))

/-- School-rating clause (`app.py` 274-275), truthiness guard. -/
def schoolRatingOk (minR : Option ℚ) (rating : Option ℚ) : Bool :=
  !(minR.isSome && pyTruthyQ rating && decide (rating.getD 0 < minR.getD 0))

/-- Market-status clause (`app.py` 279-284).  The `on_market` branch reads
`deal.get('on_market', False)`; the `off_market` branch reads
`deal.get('on_market', True)`. -/
def marketStatusOk (ms : Option String) (onMarket : Option Bool) : Bool :=
  if pyTruthyStr ms then
    if ms.getD "" == "on_market" && !(onMarket.getD false) then false
    else if ms.getD "" == "off_market" && onMarket.getD true then false
    else true
  else true

/-- The whole stage-2 (attribute) predicate: the conjunction of the clause
checks in source order (`app.py` 222-286); a deal is appended to
`filtered_deals` iff no clause hits `continue`. -/
def attributePass (s : Spec) (d : Deal) : Bool :=
  priceOk s.min_price s.max_price d.price &&
  sourceOk s.source d.source &&
  scoreOk s.min_score d.match_score &&
  exactStrOk s.property_category d.property_category &&
  exactStrOk s.property_type d.property_type &&
  bedroomsOk s.min_bedrooms s.max_bedrooms d.bedrooms &&
  bathroomsOk s.min_bathrooms s.max_bathrooms d.bathrooms &&
  sqftOk s.min_sqft s.max_sqft d.square_feet &&
  lotSizeOk s.min_lot_size s.max_lot_size d.lot_size &&
  amenityOk s.has_pool d.has_pool &&
  amenityOk s.has_gym d.has_gym &&
  amenityOk s.pet_friendly d.pet_friendly &&
  exactStrOk s.crime_rate d.crime_rate &&
  exactStrOk s.flood_zone d.flood_zone &&
  schoolRatingOk s.min_school_rating d.school_rating &&
  exactStrOk s.sewage_system d.sewage_system &&
  marketStatusOk s.market_status d.on_market

/-- Stage 2 of `get_deals`: keep, in order, the stage-1 (location-filtered,
recency-ordered) deals passing every attribute clause. -/
def filterStage2 (s : Spec) (stage1 : List Deal) : List Deal :=
  stage1.filter (fun d => attributePass s d)

/-- Python list slicing `l[start:stop]` for the non-negative indices
produced by the pagination code (`filtered_deals[start:end]` with
`start = max(0, ...) ≥ 0`). -/
def pySlice (l : List Deal) (start stop : Int) : List Deal :=
  (l.drop start.toNat).take (stop - start).toNat

/-- The JSON response shape of `/api/deals` (`app.py` 294-301). -/
structure DealsResponse where
  deals : List Deal
  count : Int
  total : Int
  page : Int
  page_size : Int
  has_more : Bool
deriving DecidableEq

/-- Stage 2 plus pagination of `get_deals` (`app.py` 220-301), as a function
of the validated spec and the stage-1 candidate list. -/
def getDealsResponse (s : Spec) (stage1 : List Deal) : DealsResponse :=
  let filtered := filterStage2 s stage1
  let total : Int := filtered.length
  let start : Int := max 0 ((s.page - 1) * s.page_size)
  let stop : Int := start + s.page_size
  let page_deals := pySlice filtered start stop
  { deals := page_deals
    count := page_deals.length
    total := total
    page := s.page
    page_size := s.page_size
    has_more := decide (stop < total) }

/-- The all-defaults request: every query parameter absent. -/
def pDefault : RawParams := {}

/-- The spec the all-defaults request validates to. -/
def sDefault : Spec := {}

/-- A deal carrying no optional attributes. -/
def dealBase : Deal := { price := 100, source := "craigslist" }

/-- A spec asking for at least one bedroom (otherwise all defaults). -/
def sMinBeds : Spec := { min_bedrooms := some 1 }

/-- A deal whose `bedrooms` column holds the present value `0`. -/
def dealStudio : Deal := { price := 100, source := "craigslist", bedrooms := some 0 }

/-- A three-deal stage-1 candidate list. -/
def dealsThree : List Deal := [dealBase, dealStudio, dealBase]

end App

namespace XRef

/-- `math.radians` — degrees to radians. -/
noncomputable def radiansF (x : ℝ) : ℝ := x * (Real.pi / 180)

/-- `math.atan2 y x` (two-argument arctangent, quadrant-aware). -/
noncomputable def atan2 (y x : ℝ) : ℝ :=
  if 0 < x then Real.arctan (y / x)
  else if x < 0 then
    (if 0 ≤ y then Real.arctan (y / x) + Real.pi else Real.arctan (y / x) - Real.pi)
  else
    (if 0 < y then Real.pi / 2 else if y < 0 then -(Real.pi / 2) else 0)

/-- `calculate_distance` (`cross_reference_zillow.py` 35-42): Haversine
distance in meters, Earth radius 6,371,000 m. -/
noncomputable def calculate_distance (lat1 lng1 lat2 lng2 : ℝ) : ℝ :=
  let R : ℝ := 6371000
  let dlat := radiansF (lat2 - lat1)
  let dlng := radiansF (lng2 - lng1)
  let a := Real.sin (dlat / 2) ^ 2 +
    Real.cos (radiansF lat1) * Real.cos (radiansF lat2) * Real.sin (dlng / 2) ^ 2
  let c := 2 * atan2 (Real.sqrt a) (Real.sqrt (1 - a))
  R * c

/-- A deal row as fetched by `fetch_deals_with_locations`: id, position, price
(the fields `calculate_match_score` and `main` read). -/
structure ZDeal where
  id : Nat
  lat : ℝ
  lng : ℝ
  price : ℝ

/-- An external (Zillow) candidate listing: id, position, price.
`price` is `Option` because the scoring code reads it defensively via
`zillow_prop.get('price', 0)`. -/
structure ZillowProp where
  zillow_id : String
  lat : ℝ
  lng : ℝ
  price : Option ℝ

/-- `calculate_match_score` (`cross_reference_zillow.py` 44-55):
`0.6 * distance_score + 0.4 * price_score`, with the divide-by-zero guard
on `deal.price`. -/
noncomputable def calculate_match_score (deal : ZDeal) (zillow_prop : ZillowProp) : ℝ :=
  let distance := calculate_distance deal.lat deal.lng zillow_prop.lat zillow_prop.lng
  let distance_score := max 0 (1 - distance / 1000)
  let price_diff := |deal.price - zillow_prop.price.getD 0|
  let price_score := if deal.price > 0 then max 0 (1 - price_diff / deal.price) else 0
  0.6 * distance_score + 0.4 * price_score

/-- The match dict built in `main` (`cross_reference_zillow.py` 173-183). -/
structure MatchRec where
  deal_id : Nat
  zillow_id : String
  score : ℝ
  deal_lat : ℝ
  deal_lng : ℝ
  zillow_lat : ℝ
  zillow_lng : ℝ
  deal_price : ℝ
  zillow_price : ℝ

/-- The inner loop of `main` over one deal's candidates
(`cross_reference_zillow.py` 170-184): score each candidate and keep a
match record exactly when `score >= 0.5`. -/
noncomputable def propMatches (deal : ZDeal) (props : List ZillowProp) : List MatchRec :=
  props.filterMap (fun prop =>
    let score := calculate_match_score deal prop
    if 0.5 ≤ score then
      some { deal_id := deal.id
             zillow_id := prop.zillow_id
             score := score
             deal_lat := deal.lat
             deal_lng := deal.lng
             zillow_lat := prop.lat
             zillow_lng := prop.lng
             deal_price := deal.price
             zillow_price := prop.price.getD 0 }
    else none)

/-- The outer loop of `main` (`cross_reference_zillow.py` 165-193),
accumulating `all_matches` over the batch with the candidate source
abstracted as a function. -/
noncomputable def mainMatches (deals : List ZDeal) (src : ZDeal → List ZillowProp) :
    List MatchRec :=
  deals.flatMap (fun d => propMatches d (src d))

/-- A row of `app.deal_zillow_matches` as inserted by `save_matches`. -/
structure DbMatch where
  deal_id : Nat
  zillow_id : String
  match_score : ℝ
  distance_meters : ℝ
  price_diff_percent : ℝ

/-- `save_matches` (`cross_reference_zillow.py` 106-127): a plain `INSERT`
per match record — the table is modelled as a list and every record is
appended, recomputing distance and the guarded price-difference percent. -/
noncomputable def save_matches (db : List DbMatch) (recs : List MatchRec) : List DbMatch :=
  db ++ recs.map (fun m =>
    { deal_id := m.deal_id
      zillow_id := m.zillow_id
      match_score := m.score
      distance_meters :=
        calculate_distance m.deal_lat m.deal_lng m.zillow_lat m.zillow_lng
      price_diff_percent :=
        if m.deal_price > 0 then (m.zillow_price - m.deal_price) / m.deal_price * 100
        else 0 })

/-- One `main` run against a match table: collect the batch's matches and
persist them (`if all_matches: save_matches(all_matches)`; an empty batch
leaves the table unchanged, which `db ++ []` also does). -/
noncomputable def runMatcher (db : List DbMatch) (deals : List ZDeal)
    (src : ZDeal → List ZillowProp) : List DbMatch :=
  save_matches db (mainMatches deals src)

/-- Number of persisted match rows for one (deal, candidate) pair. -/
def countPair (db : List DbMatch) (did : Nat) (zid : String) : Nat :=
  (db.filter (fun r => r.deal_id == did && r.zillow_id == zid)).length

/-- Modelled from the spec: the repository's `search_zillow_properties` is a
placeholder mock that cannot fail, but §7 of the spec defines
`MatchFetchFailure` — the real per-deal CandidateSource lookup is fallible.
The source is therefore modelled as `Except`-valued, threaded through the
loop of `main` exactly as written there: `main` has no per-deal exception
handler, so a failing lookup propagates out of the loop (and `save_matches`,
which only runs after the loop, is never reached). -/
noncomputable def mainMatchesE :
    List ZDeal → (ZDeal → Except String (List ZillowProp)) →
    Except String (List MatchRec)
  | [], _ => .ok []
  | d :: rest, src =>
    match src d with
    | .error e => .error e
    | .ok props =>
      match mainMatchesE rest src with
      | .error e => .error e
      | .ok ms => .ok (propMatches d props ++ ms)

/-- A zero-price deal with an identical-position, identical-price candidate. -/
noncomputable def dZero : ZDeal := { id := 7, lat := 0, lng := 0, price := 0 }

/-- The identical zero-price candidate for `dZero`. -/
noncomputable def pZero : ZillowProp := { zillow_id := "z0", lat := 0, lng := 0, price := some 0 }

/-- A price-100 deal at the origin. -/
noncomputable def dOne : ZDeal := { id := 1, lat := 0, lng := 0, price := 100 }

/-- The identical candidate for `dOne`. -/
noncomputable def pOne : ZillowProp := { zillow_id := "z1", lat := 0, lng := 0, price := some 100 }

/-- A second deal (id 2) at the origin, price 100, used for the
fetch-failure batch. -/
noncomputable def dTwo : ZDeal := { id := 2, lat := 0, lng := 0, price := 100 }

/-- A candidate source that always returns the single identical candidate
`pOne`. -/
noncomputable def srcOne : ZDeal → List ZillowProp := fun _ => [pOne]

/-- A fallible candidate source that fails for deal 1 and returns `pOne`
for every other deal. -/
noncomputable def srcFail : ZDeal → Except String (List ZillowProp) := fun d =>
  if d.id = 1 then .error "zillow search failed" else .ok [pOne]

/-- The match record `main` builds for `dOne` matched against `pOne`. -/
noncomputable def recOne : MatchRec :=
  { deal_id := 1, zillow_id := "z1", score := calculate_match_score dOne pOne
    deal_lat := 0, deal_lng := 0, zillow_lat := 0, zillow_lng := 0
    deal_price := 100, zillow_price := 100 }

/-- The match record `main` builds for `dTwo` matched against `pOne`. -/
noncomputable def recTwo : MatchRec :=
  { deal_id := 2, zillow_id := "z1", score := calculate_match_score dTwo pOne
    deal_lat := 0, deal_lng := 0, zillow_lat := 0, zillow_lng := 0
    deal_price := 100, zillow_price := 100 }

/-- The database row `save_matches` inserts for `recOne`. -/
noncomputable def rowOne : DbMatch :=
  { deal_id := 1, zillow_id := "z1", match_score := calculate_match_score dOne pOne
    distance_meters := calculate_distance 0 0 0 0
    price_diff_percent := if (100:ℝ) > 0 then (100 - 100) / 100 * 100 else 0 }

/-- Haversine distance from a point to itself is `0`: both angle deltas are
`0`, so `a = 0` and `atan2 0 1 = arctan 0 = 0`. -/
theorem calculate_distance_self (lat lng : ℝ) : calculate_distance lat lng lat lng = 0 := by
  simp only [calculate_distance, radiansF, sub_self, zero_mul, zero_div, Real.sin_zero]
  norm_num [atan2, Real.sqrt_one, Real.arctan_zero]

/-- Helper: identical position and price with a positive deal price scores
exactly `1`. -/
theorem match_score_identical_aux (d : ZDeal) (p : ZillowProp)
    (hlat : p.lat = d.lat) (hlng : p.lng = d.lng) (hpr : p.price = some d.price)
    (hpos : 0 < d.price) :
    calculate_match_score d p = 1 := by
  unfold calculate_match_score
  rw [hlat, hlng, hpr, calculate_distance_self]
  simp only [Option.getD_some, sub_self, abs_zero, zero_div]
  rw [if_pos hpos]
  norm_num

/-- Helper: with a zero deal price the `price_score` branch is the guarded
`0`, leaving only the weighted distance component. -/
theorem match_score_zero_price_aux (d : ZDeal) (p : ZillowProp) (h : d.price = 0) :
    calculate_match_score d p =
      0.6 * max 0 (1 - calculate_distance d.lat d.lng p.lat p.lng / 1000) := by
  simp only [calculate_match_score, h, gt_iff_lt, lt_self_iff_false, if_false]
  ring

/-- The concrete identical pair `dOne`/`pOne` scores exactly `1`. -/
theorem score_dOne_pOne : calculate_match_score dOne pOne = 1 :=
  match_score_identical_aux dOne pOne rfl rfl rfl (by norm_num [dOne])

/-- The concrete identical pair `dTwo`/`pOne` scores exactly `1`. -/
theorem score_dTwo_pOne : calculate_match_score dTwo pOne = 1 :=
  match_score_identical_aux dTwo pOne rfl rfl rfl (by norm_num [dTwo])

/-- Helper: the inner candidate loop on `dOne` against `[pOne]` accepts the
single candidate (its score `1` clears the `0.5` threshold). -/
theorem propMatches_dOne_pOne : propMatches dOne [pOne] = [recOne] := by
  have h5 : (0.5 : ℝ) ≤ calculate_match_score dOne pOne := by
    rw [score_dOne_pOne]; norm_num
  simp only [propMatches, List.filterMap_cons, List.filterMap_nil, if_pos h5]
  rfl

/-- Helper: the inner candidate loop on `dTwo` against `[pOne]` accepts the
single candidate. -/
theorem propMatches_dTwo_pOne : propMatches dTwo [pOne] = [recTwo] := by
  have h5 : (0.5 : ℝ) ≤ calculate_match_score dTwo pOne := by
    rw [score_dTwo_pOne]; norm_num
  simp only [propMatches, List.filterMap_cons, List.filterMap_nil, if_pos h5]
  rfl

/-- Helper: one Matcher run over the single deal `dOne` with source `srcOne`
appends exactly the row `rowOne` to the match table. -/
theorem runMatcher_dOne (db : List DbMatch) :
    runMatcher db [dOne] srcOne = db ++ [rowOne] := by
  unfold runMatcher mainMatches srcOne
  rw [List.flatMap_cons, List.flatMap_nil, List.append_nil, propMatches_dOne_pOne]
  rfl

/-- C5 counterexample: a deal and candidate with identical latitude,
longitude and price — both prices `0` — score `0.6`, not `1.0`: the
divide-by-zero guard zeroes the price component even though the prices are
identical, so the claim "identical position and price yields exactly 1.0"
fails at price `0`. -/
theorem match_score_identical_zero_price_counter :
    calculate_match_score dZero pZero = 0.6 ∧ (0.6 : ℝ) ≠ 1 := by
  constructor
  · rw [match_score_zero_price_aux dZero pZero rfl,
      show dZero.lat = (0 : ℝ) from rfl, show dZero.lng = (0 : ℝ) from rfl,
      show pZero.lat = (0 : ℝ) from rfl, show pZero.lng = (0 : ℝ) from rfl,
      calculate_distance_self]
    norm_num
  · norm_num

/-- C5 (amended): for every deal and candidate with identical latitude,
longitude and price, and a positive deal price, `calculate_match_score`
returns exactly `1.0` (the zero-price identical pair returns `0.6` instead,
per the counterexample). -/
theorem match_score_identical_positive (d : ZDeal) (p : ZillowProp)
    (hlat : p.lat = d.lat) (hlng : p.lng = d.lng) (hpr : p.price = some d.price)
    (hpos : 0 < d.price) :
    calculate_match_score d p = 1 :=
  match_score_identical_aux d p hlat hlng hpr hpos

/-- C5 witness: the identical pair `dOne`/`pOne` (price 100) scores `1`. -/
theorem match_score_identical_positive_w : calculate_match_score dOne pOne = 1 :=
  match_score_identical_positive dOne pOne rfl rfl rfl (by norm_num [dOne])

/-- C6: for a deal with `price == 0`, `calculate_match_score` never divides
by the price — the guarded `price_score` branch contributes `0`, so the
score is exactly `0.6` times the distance score. -/
theorem match_score_zero_price_no_div (d : ZDeal) (p : ZillowProp) (h : d.price = 0) :
    calculate_match_score d p =
      0.6 * max 0 (1 - calculate_distance d.lat d.lng p.lat p.lng / 1000) :=
  match_score_zero_price_aux d p h

/-- C6 witness: evaluated at the zero-price deal `dZero`. -/
theorem match_score_zero_price_no_div_w :
    calculate_match_score dZero pZero =
      0.6 * max 0 (1 - calculate_distance dZero.lat dZero.lng pZero.lat pZero.lng / 1000) :=
  match_score_zero_price_no_div dZero pZero rfl

/-- C7: every row a Matcher run adds to the match table has
`match_score ≥ 0.5`, and that score is exactly `calculate_match_score` of
some processed (deal, candidate) pair — `main` only builds a match record
when the computed score clears the `0.5` threshold, and `save_matches`
copies the score verbatim. -/
theorem matcher_persists_only_scored_matches
    (db : List DbMatch) (deals : List ZDeal) (src : ZDeal → List ZillowProp)
    (r : DbMatch) (hr : r ∈ runMatcher db deals src) :
    r ∈ db ∨ (0.5 ≤ r.match_score ∧
      ∃ d p, d ∈ deals ∧ p ∈ src d ∧ r.match_score = calculate_match_score d p) := by
  simp only [runMatcher, save_matches, mainMatches, propMatches, List.mem_append,
    List.mem_map, List.mem_flatMap, List.mem_filterMap] at hr
  rcases hr with h | ⟨m, ⟨d, hd, p, hp, hfp⟩, rfl⟩
  · exact .inl h
  · right
    split at hfp
    · next hsc =>
        obtain rfl := Option.some_inj.mp hfp
        exact ⟨hsc, d, p, hd, hp, rfl⟩
    · next => exact absurd hfp (by simp)

/-- C7 witness: the row persisted for `dOne` against `srcOne`. -/
theorem matcher_persists_only_scored_matches_w :
    rowOne ∈ ([] : List DbMatch) ∨ (0.5 ≤ rowOne.match_score ∧
      ∃ d p, d ∈ [dOne] ∧ p ∈ srcOne d ∧ rowOne.match_score = calculate_match_score d p) :=
  matcher_persists_only_scored_matches [] [dOne] srcOne rowOne
    (by rw [runMatcher_dOne]; simp)

/-- C8 (code bug evidence): in the batch `[dOne, dTwo]` where the candidate
fetch fails for `dOne` only, `main`'s loop — which has no per-deal exception
handler — propagates the failure: the whole batch aborts with the error and
`dTwo` is never processed, even though `dTwo` alone would have produced the
persistable match `recTwo` (score ≥ 0.5). -/
theorem matcher_fetch_failure_aborts :
    mainMatchesE [dOne, dTwo] srcFail = .error "zillow search failed" ∧
    mainMatchesE [dTwo] srcFail = .ok [recTwo] ∧ 0.5 ≤ recTwo.score := by
  have hsrc1 : srcFail dOne = .error "zillow search failed" := by
    simp [srcFail, dOne]
  have hsrc2 : srcFail dTwo = .ok [pOne] := by
    simp [srcFail, dTwo]
  refine ⟨?_, ?_, ?_⟩
  · simp only [mainMatchesE, hsrc1]
  · simp only [mainMatchesE, hsrc2, propMatches_dTwo_pOne, List.append_nil]
  · rw [show recTwo.score = calculate_match_score dTwo pOne from rfl, score_dTwo_pOne]
    norm_num

/-- C9 (code bug evidence): running the Matcher twice over the unchanged
deal `dOne` and unchanged candidate source `srcOne` leaves two identical
persisted rows for the pair `(1, "z1")` — `save_matches` blind-inserts,
so the rerun duplicates the row. -/
theorem matcher_rerun_duplicates :
    countPair (runMatcher (runMatcher [] [dOne] srcOne) [dOne] srcOne) 1 "z1" = 2 := by
  rw [runMatcher_dOne, runMatcher_dOne]
  simp [countPair, rowOne]

end XRef

namespace App

/-- Helper: any spec produced by validation has `page ≥ 1` and
`page_size ≥ 1` (the normalization step forces both). -/
theorem validate_page_bounds (p : RawParams) (s : Spec) (hv : validateParams p = .ok s) :
    1 ≤ s.page ∧ 1 ≤ s.page_size := by
  unfold validateParams at hv
  rcases hE : validationError p with _ | e
  all_goals rw [hE] at hv
  · rw [Except.ok.injEq] at hv
    subst hv
    constructor
    · dsimp only [normalizeSpec]
      split_ifs <;> omega
    · dsimp only [normalizeSpec]
      split_ifs <;> omega
  · exact Except.noConfusion hv

/-- C1: for every validated filter query, with `total` the number of deals
surviving the attribute stage, the returned slice is
`result[start:end]` for `start = max(0, (page-1)*page_size)` and
`end = start + page_size`; `count` equals
`min(page_size, total - (page-1)*page_size)` when `(page-1)*page_size <
total` and `0` otherwise; `has_more` holds iff `page * page_size < total`;
and the returned deals are a sublist of (appear in the same relative
recency order as) the stage-1 candidate list. -/
theorem get_deals_pagination (p : RawParams) (s : Spec) (stage1 : List Deal)
    (hv : validateParams p = .ok s) :
    (getDealsResponse s stage1).deals =
      pySlice (filterStage2 s stage1) (max 0 ((s.page - 1) * s.page_size))
        (max 0 ((s.page - 1) * s.page_size) + s.page_size) ∧
    (getDealsResponse s stage1).count =
      (if (s.page - 1) * s.page_size < ((filterStage2 s stage1).length : Int) then
        min s.page_size (((filterStage2 s stage1).length : Int) - (s.page - 1) * s.page_size)
      else 0) ∧
    ((getDealsResponse s stage1).has_more = true ↔
      s.page * s.page_size < ((filterStage2 s stage1).length : Int)) ∧
    List.Sublist (getDealsResponse s stage1).deals stage1 := by
  obtain ⟨hp1, hs1⟩ := validate_page_bounds p s hv
  have hnn : (0 : Int) ≤ (s.page - 1) * s.page_size :=
    mul_nonneg (by omega) (by omega)
  have hstart : max 0 ((s.page - 1) * s.page_size) = (s.page - 1) * s.page_size :=
    max_eq_right hnn
  refine ⟨rfl, ?_, ?_, ?_⟩
  · simp only [getDealsResponse, pySlice, List.length_take, List.length_drop]
    rw [hstart]
    have h2 : (s.page - 1) * s.page_size + s.page_size - (s.page - 1) * s.page_size
        = s.page_size := by ring
    rw [h2]
    by_cases hc : (s.page - 1) * s.page_size < ((filterStage2 s stage1).length : Int)
    · rw [if_pos hc]
      omega
    · rw [if_neg hc]
      omega
  · have h3 : (s.page - 1) * s.page_size + s.page_size = s.page * s.page_size := by ring
    simp only [getDealsResponse, decide_eq_true_eq]
    rw [hstart, h3]
  · simp only [getDealsResponse, pySlice, filterStage2]
    exact ((List.take_sublist _ _).trans (List.drop_sublist _ _)).trans
      (List.filter_sublist _)

/-- C1 witness: the pagination contract evaluated on the all-defaults query
over a concrete three-deal stage-1 list. -/
theorem get_deals_pagination_w :
    (getDealsResponse sDefault dealsThree).deals =
      pySlice (filterStage2 sDefault dealsThree)
        (max 0 ((sDefault.page - 1) * sDefault.page_size))
        (max 0 ((sDefault.page - 1) * sDefault.page_size) + sDefault.page_size) ∧
    (getDealsResponse sDefault dealsThree).count =
      (if (sDefault.page - 1) * sDefault.page_size <
          ((filterStage2 sDefault dealsThree).length : Int) then
        min sDefault.page_size (((filterStage2 sDefault dealsThree).length : Int) -
          (sDefault.page - 1) * sDefault.page_size)
      else 0) ∧
    ((getDealsResponse sDefault dealsThree).has_more = true ↔
      sDefault.page * sDefault.page_size <
        ((filterStage2 sDefault dealsThree).length : Int)) ∧
    List.Sublist (getDealsResponse sDefault dealsThree).deals dealsThree :=
  get_deals_pagination pDefault sDefault dealsThree rfl

/-- C2 counterexample: supplying `page_size=0` is rejected by validation
with a 400 error — the query does not proceed with `page_size` defaulted
to `100` as claimed. -/
theorem page_size_zero_rejected_counter :
    validateParams { page_size := some 0 } = .error "page_size must be between 1 and 1000" := by
  rfl

/-- C2 (amended): a supplied non-positive `page_size` is rejected by
validation with a 400 error (the `page_size or 100` defaulting branch is
unreachable for it); a supplied non-positive `page`, by contrast, is not
validated and is silently normalized to `1`. -/
theorem nonpositive_pagination_semantics :
    (∀ (p : RawParams) (ps : Int), p.page_size = some ps → ps ≤ 0 →
      ∃ e, validateParams p = .error e) ∧
    (∀ (p : RawParams) (pg : Int) (s : Spec), p.page = some pg → pg ≤ 0 →
      validateParams p = .ok s → s.page = 1) := by
  constructor
  · intro p ps hps hle
    have h7 : (decide (p.page_size.getD 100 < 1) || decide (p.page_size.getD 100 > 1000))
        = true := by
      rw [hps]
      simp only [Option.getD_some, Bool.or_eq_true, decide_eq_true_eq]
      omega
    have hE : ∃ e, validationError p = some e := by
      unfold validationError
      by_cases h1 : (p.min_price.isSome && decide (p.min_price.getD 0 < 0)) = true
      · rw [if_pos h1]; exact ⟨_, rfl⟩
      rw [if_neg h1]
      by_cases h2 : (p.max_price.isSome && decide (p.max_price.getD 0 < 0)) = true
      · rw [if_pos h2]; exact ⟨_, rfl⟩
      rw [if_neg h2]
      by_cases h3 : (p.min_price.isSome && p.max_price.isSome &&
          decide (p.min_price.getD 0 > p.max_price.getD 0)) = true
      · rw [if_pos h3]; exact ⟨_, rfl⟩
      rw [if_neg h3]
      by_cases h4 : (p.radius.isSome &&
          (decide (p.radius.getD 0 < 0) || decide (p.radius.getD 0 > 100))) = true
      · rw [if_pos h4]; exact ⟨_, rfl⟩
      rw [if_neg h4]
      by_cases h5 : (decide (p.min_score.getD 0 < 0) || decide (p.min_score.getD 0 > 1)) = true
      · rw [if_pos h5]; exact ⟨_, rfl⟩
      rw [if_neg h5]
      by_cases h6 : (decide (p.limit.getD 100 < 1) || decide (p.limit.getD 100 > 1000)) = true
      · rw [if_pos h6]; exact ⟨_, rfl⟩
      rw [if_neg h6, if_pos h7]
      exact ⟨_, rfl⟩
    obtain ⟨e, he⟩ := hE
    exact ⟨e, by unfold validateParams; rw [he]⟩
  · intro p pg s hpg hle hv
    unfold validateParams at hv
    rcases hE : validationError p with _ | e
    all_goals rw [hE] at hv
    · rw [Except.ok.injEq] at hv
      subst hv
      dsimp only [normalizeSpec]
      rw [hpg]
      simp only [Option.getD_some]
      rw [if_pos (by omega)]
    · exact Except.noConfusion hv

/-- C2 witness: `page_size=0` produces an error; the all-defaults spec —
also reached from `page=0` — carries `page = 1`. -/
theorem nonpositive_pagination_semantics_w :
    (∃ e, validateParams { page_size := some 0 } = .error e) ∧ sDefault.page = 1 :=
  ⟨nonpositive_pagination_semantics.1 { page_size := some 0 } 0 rfl (by norm_num),
   nonpositive_pagination_semantics.2 { page := some 0 } 0 sDefault rfl (by norm_num) rfl⟩

/-- C3 counterexample: a deal with the present bedrooms value `0` (outside
the supplied bound `min_bedrooms = 1`) still passes the whole attribute
stage — the Python truthiness guard `deal.get('bedrooms') and ...` treats
`0` like a missing value, so the claim "a present value is excluded exactly
when it lies outside the bounds" fails at `bedrooms = 0`. -/
theorem bedrooms_zero_not_excluded_counter :
    attributePass sMinBeds dealStudio = true ∧
    dealStudio.bedrooms = some 0 ∧ sMinBeds.min_bedrooms = some 1 ∧ (0 : Int) < 1 := by
  refine ⟨by decide, rfl, rfl, by norm_num⟩

/-- C3 (amended): the bedroom-bounds clause excludes a deal iff its
bedrooms value is present, nonzero, and outside a supplied bound; a deal
with a null/absent bedrooms value — and likewise one with the present
falsy value `0` — is never excluded by `min_bedrooms`/`max_bedrooms`. -/
theorem bedrooms_bound_skip_semantics (minB maxB beds : Option Int) :
    bedroomsOk minB maxB beds = false ↔
      ∃ b, beds = some b ∧ b ≠ 0 ∧
        ((∃ m, minB = some m ∧ b < m) ∨ (∃ M, maxB = some M ∧ M < b)) := by
  rcases beds with _ | b
  · simp [bedroomsOk, pyTruthyInt]
  · rcases minB with _ | m <;> rcases maxB with _ | M <;>
      (simp [bedroomsOk, pyTruthyInt, decide_eq_true_eq]; try omega)

/-- C3 witness: instantiated at `min_bedrooms = 1`, `bedrooms = 0`. -/
theorem bedrooms_bound_skip_semantics_w :
    bedroomsOk (some 1) none (some 0) = false ↔
      ∃ b, (some 0 : Option Int) = some b ∧ b ≠ 0 ∧
        ((∃ m, (some 1 : Option Int) = some m ∧ b < m) ∨
          (∃ M, (none : Option Int) = some M ∧ M < b)) :=
  bedrooms_bound_skip_semantics (some 1) none (some 0)

/-- C4 counterexample: a deal with an absent on-market flag is excluded by
the `on_market` filter — the code reads `deal.get('on_market', False)`
there, defaulting the absent flag to false, not true as the claim states. -/
theorem market_status_absent_flag_counter :
    marketStatusOk (some "on_market") none = false := by
  decide

/-- C4 (amended): the `on_market` filter keeps exactly the deals whose
on-market flag is present and true (the absent flag defaults to false
there), and the `off_market` filter keeps exactly the deals whose flag is
present and false (the absent flag defaults to true there) — so an
absent-flag deal is excluded by both filters. -/
theorem market_status_semantics (flag : Option Bool) :
    (marketStatusOk (some "on_market") flag = true ↔ flag = some true) ∧
    (marketStatusOk (some "off_market") flag = true ↔ flag = some false) := by
  rcases flag with _ | b
  · decide
  · cases b <;> decide

/-- C4 witness: a present-and-true flag is kept by the `on_market` filter. -/
theorem market_status_semantics_w :
    marketStatusOk (some "on_market") (some true) = true :=
  (market_status_semantics (some true)).1.mpr rfl

/-- Helper: the validation check chain never reads the amenity parameters,
so updating them leaves its outcome unchanged. -/
theorem validationError_amenity_independent (p : RawParams) (r1 r2 r3 : Option String) :
    validationError { p with has_pool := r1, has_gym := r2, pet_friendly := r3 } =
      validationError p := by
  cases p
  simp only [validationError]

/-- C10: a boolean amenity parameter is parsed as true iff the raw value is
exactly the lowercase string `"true"`; with the flag false the amenity
clause keeps every deal (the filter is simply not applied), with it true
the clause keeps exactly the deals whose own flag is true; amenity parsing
is reflected verbatim into the validated spec; and the raw amenity values
never influence the validation outcome (no value produces an error). -/
theorem amenity_param_semantics :
    (∀ r : Option String, isTrue r = true ↔ r = some "true") ∧
    (∀ dflag : Option Bool, amenityOk false dflag = true) ∧
    (∀ dflag : Option Bool, amenityOk true dflag = dflag.getD false) ∧
    (∀ (p : RawParams) (s : Spec), validateParams p = .ok s →
      s.has_pool = isTrue p.has_pool ∧ s.has_gym = isTrue p.has_gym ∧
        s.pet_friendly = isTrue p.pet_friendly) ∧
    (∀ (p : RawParams) (r1 r2 r3 : Option String),
      validateErr { p with has_pool := r1, has_gym := r2, pet_friendly := r3 } =
        validateErr p) := by
  refine ⟨?_, ?_, ?_, ?_, ?_⟩
  · intro r
    simp [isTrue]
  · intro dflag
    rfl
  · intro dflag
    rcases dflag with _ | b
    · rfl
    · cases b <;> rfl
  · intro p s hv
    unfold validateParams at hv
    rcases hE : validationError p with _ | e
    all_goals rw [hE] at hv
    · rw [Except.ok.injEq] at hv
      subst hv
      exact ⟨rfl, rfl, rfl⟩
    · exact Except.noConfusion hv
  · intro p r1 r2 r3
    unfold validateErr validateParams
    rw [validationError_amenity_independent]
    rcases hE : validationError p with _ | e
    · rfl
    · rfl

/-- C10 witness: `"true"` parses as true; `"True"`, `"1"` and `"yes"` are
silently treated as false and change neither the validation outcome nor
the spec fields derived from the other parameters. -/
theorem amenity_param_semantics_w :
    (isTrue (some "true") = true) ∧
    amenityOk false (some true) = true ∧
    amenityOk true (some false) = (some false).getD false ∧
    (sDefault.has_pool = isTrue pDefault.has_pool ∧
      sDefault.has_gym = isTrue pDefault.has_gym ∧
      sDefault.pet_friendly = isTrue pDefault.pet_friendly) ∧
    validateErr { pDefault with
      has_pool := some "True"
      has_gym := some "1"
      pet_friendly := some "yes" } = validateErr pDefault :=
  ⟨(amenity_param_semantics.1 (some "true")).mpr rfl,
   amenity_param_semantics.2.1 (some true),
   amenity_param_semantics.2.2.1 (some false),
   amenity_param_semantics.2.2.2.1 pDefault sDefault rfl,
   amenity_param_semantics.2.2.2.2 pDefault (some "True") (some "1") (some "yes")⟩

end App

end DealFinder
